import Mathlib

/-!
Shallow embedding of the node-iamb-mattermost client (lib/index.js,
lib/message.js plus its room/user-db companions) and proofs about the
behaviour its specification describes.

JavaScript objects are modelled as Lean structures; `null`/`undefined`
values as `Option`; the mooremachine FSMs as explicit state types with one
Lean function per registered handler or entry action; EventEmitter
emissions as values accumulated in result lists. The external `taiga`
AVL-tree collaborator is modelled as a list kept in comparator order by an
ordered insert (`avlInsert`), with `forEach` iterating in that order; an
element comparing equal to existing ones descends right, i.e. is placed
after them.
-/

/- ------------------------------------------------------------------ -/
/- Users (lib/user.js companion of message.js): MattermostUser record. -/

/-- One user-directory record. In the source the constructor sets
`mmu_username` and `mmu_nickname` to `null`; `mmu_unode`/`mmu_nnode` are
AVL node handles of the external tree and carry no data, so they are not
modelled. -/
structure MattermostUser where
  mmu_id : String
  mmu_username : Option String
  mmu_nickname : Option String
  deriving DecidableEq, Repr

/-- `MattermostUser.prototype.getDisplayName`: the nickname when it is
neither `null` nor the empty string, otherwise the username. -/
def MattermostUser.getDisplayName (u : MattermostUser) : Option String :=
  if u.mmu_nickname ≠ none ∧ u.mmu_nickname ≠ some "" then
    u.mmu_nickname
  else
    u.mmu_username

/- ------------------------------------------------------------------ -/
/- Posts and messages (lib/message.js).                                -/

/-- The decoded JSON body of one post, with the fields the client reads:
`type` (message subtype), `message` (body text), `user_id` (speaker),
`channel_id`, `create_at` (server-assigned creation timestamp in ms). -/
structure Post where
  type : String
  message : String
  user_id : String
  channel_id : String
  create_at : Nat
  deriving DecidableEq, Repr

/-- `MattermostMessage`: one chat message. The source also stores
`mmm_room` (a cyclic back-reference to the owning room), `mmm_id` (only
ever `null`) and `mmm_node` (the AVL node handle); none of these carries
data any claim reads, so they are omitted. -/
structure MattermostMessage where
  mmm_speaker : MattermostUser
  mmm_post : Post
  deriving DecidableEq, Repr

/-- `MattermostMessage.prototype.created`: the post's creation timestamp. -/
def MattermostMessage.created (m : MattermostMessage) : Nat :=
  m.mmm_post.create_at

/-- `MattermostMessage.prototype.text`. -/
def MattermostMessage.text (m : MattermostMessage) : String :=
  m.mmm_post.message

/-- `MattermostMessage.prototype.speaker`. -/
def MattermostMessage.speaker (m : MattermostMessage) : MattermostUser :=
  m.mmm_speaker

/-- `compareMessages` (lib/message.js): three-way comparison on the
creation timestamps, returning -1/0/1 as in the source. -/
def compareMessages (a b : MattermostMessage) : Int :=
  let ac := a.created
  let bc := b.created
  if ac < bc then -1
  else if ac = bc then 0
  else 1

/-- Model of `mod_taiga.AVLTree.insert` followed by in-order iteration
(`forEach`): the tree holds its elements in comparator order, so insertion
is ordered insertion into the iteration sequence. The insert descends
right on a non-negative comparison, so an element comparing equal to
existing ones ends up after them. -/
def avlInsert (cmp : α → α → Int) (x : α) : List α → List α
  | [] => [x]
  | y :: ys => if cmp x y < 0 then x :: y :: ys else y :: avlInsert cmp x ys

/- ------------------------------------------------------------------ -/
/- Rooms (lib/room.js companion of message.js).                        -/

/-- The channel object (from the REST API) a room is built from. -/
structure Channel where
  id : String
  name : String
  display_name : String
  type : String
  deriving DecidableEq, Repr

/-- `MattermostRoom`: per-conversation store. `mmr_msgs` is the taiga AVL
tree of messages ordered by `compareMessages`, modelled as its in-order
element list. `mmr_other` is the counterpart user of a direct room. The
`mmr_client`/`mmr_users` back-references are passed explicitly to the
operations that use them. -/
structure MattermostRoom where
  mmr_id : String
  mmr_alias : String
  mmr_name : String
  mmr_type : String
  mmr_msgs : List MattermostMessage
  mmr_other : Option MattermostUser
  deriving DecidableEq, Repr

/-- The `MattermostRoom(opts)` constructor: copies the channel fields,
starts with an empty message tree, and sets `mmr_other` to `null`. -/
def mkMattermostRoom (channel : Channel) : MattermostRoom :=
  { mmr_id := channel.id
    mmr_alias := channel.name
    mmr_name := channel.display_name
    mmr_type := channel.type
    mmr_msgs := []
    mmr_other := none }

/-- `MattermostRoom.prototype.append`: insert the message into the ordered
store. (The source then emits a `message` notification carrying it; the
emission carries no state and is not needed by the history claims.) -/
def MattermostRoom.append (r : MattermostRoom) (m : MattermostMessage) :
    MattermostRoom :=
  { r with mmr_msgs := avlInsert compareMessages m r.mmr_msgs }

/-- A sequence of `append` calls, in call order. -/
def appendAll (r : MattermostRoom) (ms : List MattermostMessage) :
    MattermostRoom :=
  ms.foldl MattermostRoom.append r

/-- `a` is yielded strictly before `b` when iterating the list `l`
(`forEachMessage` iterates `mmr_msgs` in order). -/
def IterBefore (l : List α) (a b : α) : Prop :=
  ∃ i j : Fin l.length, i < j ∧ l.get i = a ∧ l.get j = b

instance {α : Type} [DecidableEq α] (l : List α) (a b : α) :
    Decidable (IterBefore l a b) := by
  unfold IterBefore
  infer_instance

/-- `MattermostRoom.prototype.alias`: for a direct room, the counterpart's
username; otherwise the channel alias. Dereferencing a `null`
`mmr_other` is a TypeError, modelled by the outer `Option` being `none`. -/
def MattermostRoom.alias (r : MattermostRoom) : Option (Option String) :=
  if r.mmr_type = "D" then
    r.mmr_other.map (fun u => u.mmu_username)
  else
    some (some r.mmr_alias)

/-- `MattermostRoom.prototype.name`: for a direct room, the counterpart's
display name; otherwise the channel display name. As for `alias`, the
outer `Option` is `none` exactly when the source would throw a TypeError
dereferencing `null`. -/
def MattermostRoom.name (r : MattermostRoom) : Option (Option String) :=
  if r.mmr_type = "D" then
    r.mmr_other.map MattermostUser.getDisplayName
  else
    some (some r.mmr_name)

/- ------------------------------------------------------------------ -/
/- User directory (lib/user.js companion): MattermostUserDB.           -/

/-- `compareUserID` (lib/user.js): three-way comparison on `mmu_id`. -/
def compareUserID (a b : MattermostUser) : Int :=
  if a.mmu_id < b.mmu_id then -1
  else if a.mmu_id = b.mmu_id then 0
  else 1

/-- `MattermostUserDB`: the two taiga AVL indices, by id and by username,
each modelled as its in-order element list. -/
structure MattermostUserDB where
  mud_uids : List MattermostUser
  mud_name : List MattermostUser
  deriving DecidableEq, Repr

/-- `MattermostUserDB.prototype.getUserById`: find the record with the
given id in the id index (the AVL `find` with `compareUserID` locates the
element whose `mmu_id` equals the probe's). -/
def MattermostUserDB.getUserById (db : MattermostUserDB) (id : String) :
    Option MattermostUser :=
  db.mud_uids.find? (fun u => u.mmu_id == id)

/-- `MattermostUserDB.prototype.getUser(id, nickname)`: return the record
as-is when present; otherwise create a placeholder, insert it into the id
index, and schedule an asynchronous fill-in fetch (`_fillIn`). The result
is the returned record, the updated directory state, and whether a fill-in
fetch was scheduled. -/
def MattermostUserDB.getUser (db : MattermostUserDB) (id : String)
    (nickname : Option String) :
    MattermostUser × MattermostUserDB × Bool :=
  match db.getUserById id with
  | some u => (u, db, false)
  | none =>
    let u : MattermostUser :=
      { mmu_id := id, mmu_username := none, mmu_nickname := nickname }
    (u, { db with mud_uids := avlInsert compareUserID u db.mud_uids }, true)

/-- `MattermostRoom.prototype._loadPost`: resolve the speaker through the
directory (possibly inserting a placeholder) and append the message. -/
def loadPost (r : MattermostRoom) (db : MattermostUserDB) (post : Post) :
    MattermostRoom × MattermostUserDB :=
  let res := db.getUser post.user_id none
  (r.append { mmm_speaker := res.1, mmm_post := post }, res.2.1)

/-- A history page as returned by the posts REST call: the `order` array
of post ids and the `posts` object keyed by id. -/
structure PostsPage where
  order : List String
  posts : List (String × Post)
  deriving DecidableEq, Repr

/-- `MattermostRoom.prototype._loadPosts`: walk `order` from the last
entry to the first, loading each post present in the `posts` object. -/
def loadPosts (r : MattermostRoom) (db : MattermostUserDB)
    (pg : PostsPage) : MattermostRoom × MattermostUserDB :=
  pg.order.reverse.foldl
    (fun rd id =>
      match pg.posts.lookup id with
      | some p => loadPost rd.1 rd.2 p
      | none => rd)
    (r, db)

/- ------------------------------------------------------------------ -/
/- Session state machine (lib/index.js).                               -/

/-- The mooremachine states of `MattermostClient` (the `authenticating`
sub-states pick the credential branch and are not needed by the socket
failure-handling claims). -/
inductive ClientState
  | authenticating
  | connecting
  | connected
  | connectedFailed
  | failed
  deriving DecidableEq, Repr

/-- The stimuli for which `state_connected` registers handlers: the three
socket events on the websocket (`connectionReset`, `error`, `end`) and the
client's own `reauthAsserted` event. -/
inductive ConnectedEvent
  | connectionReset
  | wsError
  | wsEnd
  | reauthAsserted
  deriving DecidableEq, Repr

/-- The `gotoState` each handler registered by `state_connected`
performs: reset and end go to `connecting`, a socket error goes to the
`connected.failed` sub-state, `reauthAsserted` goes to `authenticating`. -/
def state_connected_handle : ConnectedEvent → ClientState
  | .connectionReset => .connecting
  | .wsError => .connectedFailed
  | .wsEnd => .connecting
  | .reauthAsserted => .authenticating

/-- The entry action of `state_connected.failed`: log the recorded error
and unconditionally `gotoState('connecting')`. Entry into any other state
performs no immediate transition relevant to the socket-failure claims. -/
def runEntry : ClientState → ClientState
  | .connectedFailed => .connecting
  | s => s

/-- The identity record the client stores in `self.user` (the JSON user
object returned by the REST API; the fields beyond these are not read by
the modelled code). -/
structure UserJson where
  id : String
  username : String
  deriving DecidableEq, Repr

/-- The part of the client state the `connected`-entry emission reads and
writes: the monotonic `connectEmitted` flag (initialised `false` in the
constructor) and the authenticated identity `self.user` (initialised
`null`, set by the authentication states). -/
structure SessionEmitState where
  connectEmitted : Bool
  user : Option UserJson
  deriving DecidableEq, Repr

/-- The lifecycle events `state_connected` emits on entry. -/
inductive SessionLifecycleEvent
  | connected (user : Option UserJson)
  | reconnected
  deriving DecidableEq, Repr

/-- The EventEmitter event name under which each lifecycle event is
emitted (`self.emit('connected', self.user)` / `self.emit('reconnected')`). -/
def SessionLifecycleEvent.name : SessionLifecycleEvent → String
  | .connected _ => "connected"
  | .reconnected => "reconnected"

/-- The emission performed on entering `state_connected`: if
`connectEmitted` is already set, emit `reconnected`; otherwise set the
flag and emit `connected` carrying `self.user`. -/
def enterConnected (s : SessionEmitState) :
    SessionEmitState × SessionLifecycleEvent :=
  if s.connectEmitted then
    (s, .reconnected)
  else
    ({ s with connectEmitted := true }, .connected s.user)

/-- The state and emission trace of `n` successive entries into
`connected`. -/
def enterConnectedTrace :
    SessionEmitState → Nat → SessionEmitState × List SessionLifecycleEvent
  | s, 0 => (s, [])
  | s, n + 1 =>
    let first := enterConnected s
    let rest := enterConnectedTrace first.1 n
    (rest.1, first.2 :: rest.2)

/- ------------------------------------------------------------------ -/
/- REST callback wrapping: _handlecb (lib/index.js).                   -/

/-- A JavaScript error object as seen by the callback chain: either the
error restify delivered, or the `VError('client needs to reauthenticate')`
that `_handlecb` substitutes on session expiry. -/
inductive JsError
  | serverErr (tag : Nat)
  | reauthNeeded
  deriving DecidableEq, Repr

/-- A REST response body: its `id` field, when present, plus a tag
standing for the rest of the payload. -/
structure RestBody where
  id : Option String
  tag : Nat
  deriving DecidableEq, Repr

/-- An untyped JavaScript argument slot in a callback invocation. A
parameter a caller does not supply is `undefined`. -/
inductive JsValue
  | undefined
  | err (e : JsError)
  | body (b : RestBody)
  deriving DecidableEq, Repr

/-- JavaScript truthiness of the modelled values: `undefined` is falsy,
error and body objects are truthy. -/
def JsValue.truthy : JsValue → Bool
  | .undefined => false
  | _ => true

/-- `body.id` of an argument slot, when it holds a body that has one. -/
def JsValue.bodyId : JsValue → Option String
  | .body b => b.id
  | _ => none

/-- The server's session-expiry error code. -/
def sessionExpiredId : String := "api.context.session_expired.app_error"

/-- The observable outcome of one REST callback chain: how many times
`reauthAsserted` was emitted, and the two argument slots that reached the
user's callback. -/
structure CbOutcome where
  reauthEmits : Nat
  arg1 : JsValue
  arg2 : JsValue
  deriving DecidableEq, Repr

/-- Record one `reauthAsserted` emission around an outcome. -/
def emitReauth (o : CbOutcome) : CbOutcome :=
  { o with reauthEmits := o.reauthEmits + 1 }

/-- `MattermostClient.prototype._handlecb`: wraps a callback into the
four-parameter restify handler `(err, req, res, body)`. If `err` and
`body` are truthy and `body.id` is the session-expiry code, it emits
`reauthAsserted` and invokes the callback with a single error argument;
otherwise it invokes the callback with `(err, body)`. The wrapped
callback takes at most two arguments, so it is modelled as binary; a
JavaScript call site supplying fewer arguments passes `undefined` for the
rest. -/
def handlecb (callback : JsValue → JsValue → CbOutcome)
    (err req res body : JsValue) : CbOutcome :=
  if err.truthy && body.truthy && (body.bodyId == some sessionExpiredId) then
    emitReauth (callback (.err .reauthNeeded) .undefined)
  else
    callback err body

/-- The observer standing for the consumer's callback: it records the
argument slots it receives. -/
def userCb : JsValue → JsValue → CbOutcome :=
  fun a b => { reauthEmits := 0, arg1 := a, arg2 := b }

/-- The callback chain of an ordinary REST operation (`listTeams`,
`getUserById`, `addUserToChannel`, ...): restify invokes
`_handlecb(callback)` with `(err, req, res, body)`. -/
def restOpOutcome (callback : JsValue → JsValue → CbOutcome)
    (err req res body : JsValue) : CbOutcome :=
  handlecb callback err req res body

/-- The callback chain of `joinChannel` (and the identically-shaped
`leaveChannel`): it passes `this._handlecb(callback)` as the callback of
`addUserToChannel`, which itself wraps that argument in `_handlecb`
again. The outer wrapper is therefore invoked as a two-argument callback,
leaving its `res` and `body` parameters `undefined`. -/
def joinChannelOutcome (callback : JsValue → JsValue → CbOutcome)
    (err req res body : JsValue) : CbOutcome :=
  handlecb (fun v1 v2 => handlecb callback v1 v2 .undefined .undefined)
    err req res body

/- ------------------------------------------------------------------ -/
/- Event classifier: _processEvent / _processPosted (lib/index.js).    -/

/-- A JSON value as far as the classifier inspects one: a string, or
anything else (only `typeof (obj.status) === 'string'` is ever tested). -/
inductive JsonValue
  | str (s : String)
  | other (tag : Nat)
  deriving DecidableEq, Repr

/-- The `data` member of an inbound envelope. Its `post` member is the
JSON text of the nested post; `JSON.parse` of it is an external step whose
result is modelled directly: `none` when parsing throws (including when
`data.post` is absent), `some p` when it yields post `p`. -/
structure EnvData where
  post : Option Post
  deriving DecidableEq, Repr

/-- An inbound websocket envelope: the `event` discriminator (absent when
`undefined`), the `status` field of command-response acknowledgments, and
the `data` payload. Accessing `obj.data.post` when `data` is absent
throws inside `_processPosted`'s try block, so `data` is `Option`al. -/
structure Envelope where
  event : Option String
  status : Option JsonValue
  data : Option EnvData
  deriving DecidableEq, Repr

/-- The emissions the classifier can perform for one frame. -/
inductive Emission
  | typing
  | message (d : EnvData) (p : Post)
  | special
  deriving DecidableEq, Repr

/-- The log records the classifier can produce for one frame (severity in
the name: `debug` is low severity, `warn` is not). -/
inductive LogRecord
  | debugEvent
  | debugResponse
  | warnWeirdPosted
  | warnUnknownType (t : String)
  deriving DecidableEq, Repr

/-- The known post subtypes `_processPosted` recognises and intentionally
does not surface as chat messages. -/
def knownSystemPostTypes : List String :=
  [ "slack_attachment"
  , "system_header_change"
  , "system_add_to_channel"
  , "system_join_channel"
  , "system_leave_channel"
  , "system_remove_from_channel"
  , "system_displayname_change"
  , "system_purpose_change"
  , "system_channel_deleted"
  , "system_ephemeral"
  , "system_generic" ]

/-- The `event` kinds `_processEvent` handles with a bare `break` (no
semantic event of their own). -/
def knownNoopEvents : List String :=
  [ "hello"
  , "channel_viewed"
  , "channel_updated"
  , "post_edited"
  , "status_change"
  , "post_deleted"
  , "channel_created"
  , "channel_deleted"
  , "direct_added"
  , "group_added"
  , "added_to_team"
  , "new_user"
  , "leave_team"
  , "update_team"
  , "user_added"
  , "user_removed"
  , "preference_changed"
  , "preferences_changed"
  , "preferences_deleted"
  , "ephemeral_message"
  , "reaction_added"
  , "memberrole_updated"
  , "webrtc"
  , "authentication_challenge"
  , "reaction_removed"
  , "response"
  , "user_updated"
  , "emoji_added" ]

/-- Every `event` kind `_processEvent` has a case for. -/
def knownEventKinds : List String :=
  "typing" :: "posted" :: knownNoopEvents

/-- `MattermostClient.prototype._processPosted`: decode the nested post;
on a decode failure, warn and return nothing; an empty `type` is a normal
chat message and is emitted as `message` carrying `obj.data` and the
decoded post; a known system subtype is deliberately not surfaced; any
other subtype is warned about. -/
def processPosted (obj : Envelope) : List Emission × List LogRecord :=
  match obj.data with
  | none => ([], [.warnWeirdPosted])
  | some d =>
    match d.post with
    | none => ([], [.warnWeirdPosted])
    | some post =>
      if post.type = "" then ([.message d post], [])
      else if post.type ∈ knownSystemPostTypes then ([], [])
      else ([], [.warnUnknownType post.type])

/-- `MattermostClient.prototype._processEvent`: log the frame at debug
severity, switch on `obj.event` (`typing` emits `typing`, `posted`
defers to `_processPosted`, the other known kinds are no-ops, an absent
`event` with a string `status` is logged at debug severity as a
command response), then emit the generic `special` notification for every
handled frame. A present-but-unknown `event`, or an absent `event`
without a string `status`, falls into the `default` case, which throws —
modelled by `Except.error` carrying the offending envelope. -/
def processEvent (obj : Envelope) :
    List LogRecord × Except Envelope (List Emission) :=
  let step : Except Envelope (List Emission × List LogRecord) :=
    match obj.event with
    | some e =>
      if e = "typing" then .ok ([.typing], [])
      else if e = "posted" then .ok (processPosted obj)
      else if e ∈ knownNoopEvents then .ok ([], [])
      else .error obj
    | none =>
      match obj.status with
      | some (.str _) => .ok ([], [.debugResponse])
      | _ => .error obj
  match step with
  | .error o => ([LogRecord.debugEvent], .error o)
  | .ok (es, ls) => (LogRecord.debugEvent :: ls, .ok (es ++ [.special]))

/-- The events the classifier surfaces to subscribers for one frame
(empty when the frame throws). -/
def classifierEmissions (obj : Envelope) : List Emission :=
  match (processEvent obj).2 with
  | .ok es => es
  | .error _ => []

/- ------------------------------------------------------------------ -/
/- Room fetch state machine (lib/room.js companion).                   -/

/-- The mooremachine states of `MattermostRoom`. -/
inductive RoomState
  | waiting
  | loading
  | listening
  deriving DecidableEq, Repr

/-- `MattermostRoom.prototype.state_listening` registers exactly one
handler: on the parent client's EventEmitter event named `reconnect`,
`gotoState('loading')`. Any other event name leaves the room in
`listening`. -/
def state_listening_handle (eventName : String) : RoomState :=
  if eventName = "reconnect" then .loading else .listening

/- ------------------------------------------------------------------ -/
/- Concrete data used by witnesses and counterexamples.                -/

/-- A concrete user record. -/
def cxUser : MattermostUser :=
  { mmu_id := "U1", mmu_username := some "alice", mmu_nickname := none }

/-- A concrete post with timestamp 5. -/
def cxPostA : Post :=
  { type := "", message := "a", user_id := "U1", channel_id := "C1",
    create_at := 5 }

/-- A second, distinct post with the same timestamp 5. -/
def cxPostB : Post :=
  { type := "", message := "b", user_id := "U1", channel_id := "C1",
    create_at := 5 }

/-- A concrete post with the later timestamp 9. -/
def cxPostC : Post :=
  { type := "", message := "c", user_id := "U1", channel_id := "C1",
    create_at := 9 }

/-- Message with timestamp 5. -/
def cxMsgA : MattermostMessage := { mmm_speaker := cxUser, mmm_post := cxPostA }

/-- A distinct message with the same timestamp 5. -/
def cxMsgB : MattermostMessage := { mmm_speaker := cxUser, mmm_post := cxPostB }

/-- Message with timestamp 9. -/
def cxMsgC : MattermostMessage := { mmm_speaker := cxUser, mmm_post := cxPostC }

/-- A concrete ordinary channel. -/
def cxChannel : Channel :=
  { id := "C1", name := "general", display_name := "General", type := "O" }

/-- A concrete direct channel (type `D`). -/
def cxDirectChannel : Channel :=
  { id := "C2", name := "u0__u1", display_name := "", type := "D" }

/- ------------------------------------------------------------------ -/
/- Helper lemmas about the ordered insert.                             -/

theorem appendAll_cons (r : MattermostRoom) (a : MattermostMessage)
    (as : List MattermostMessage) :
    appendAll r (a :: as) = appendAll (r.append a) as := rfl

theorem append_msgs (r : MattermostRoom) (m : MattermostMessage) :
    (r.append m).mmr_msgs = avlInsert compareMessages m r.mmr_msgs := rfl

theorem mem_avlInsert {α : Type} {cmp : α → α → Int} {x a : α}
    {l : List α} : a ∈ avlInsert cmp x l ↔ a = x ∨ a ∈ l := by
  induction l with
  | nil => simp [avlInsert]
  | cons y ys ih =>
    simp only [avlInsert]
    split
    · simp [List.mem_cons]
    · simp only [List.mem_cons, ih]
      tauto

theorem compareMessages_lt_zero {a b : MattermostMessage} :
    compareMessages a b < 0 ↔ a.created < b.created := by
  simp only [compareMessages]
  split_ifs <;> omega

theorem pairwise_avlInsert_compareMessages (x : MattermostMessage)
    (l : List MattermostMessage)
    (h : l.Pairwise (fun a b => a.created ≤ b.created)) :
    (avlInsert compareMessages x l).Pairwise
      (fun a b => a.created ≤ b.created) := by
  induction l with
  | nil => simp [avlInsert]
  | cons y ys ih =>
    rw [List.pairwise_cons] at h
    obtain ⟨hy, hys⟩ := h
    simp only [avlInsert]
    split
    · rename_i hlt
      rw [compareMessages_lt_zero] at hlt
      rw [List.pairwise_cons]
      refine ⟨?_, ?_⟩
      · intro b hb
        rcases List.mem_cons.mp hb with rfl | hb
        · exact Nat.le_of_lt hlt
        · exact Nat.le_trans (Nat.le_of_lt hlt) (hy b hb)
      · rw [List.pairwise_cons]
        exact ⟨hy, hys⟩
    · rename_i hge
      rw [compareMessages_lt_zero] at hge
      rw [List.pairwise_cons]
      refine ⟨?_, ih hys⟩
      intro b hb
      rcases mem_avlInsert.mp hb with rfl | hb
      · exact Nat.le_of_not_lt hge
      · exact hy b hb

theorem mem_appendAll (r : MattermostRoom) (ms : List MattermostMessage)
    {m : MattermostMessage} (h : m ∈ ms ∨ m ∈ r.mmr_msgs) :
    m ∈ (appendAll r ms).mmr_msgs := by
  induction ms generalizing r with
  | nil => simpa [appendAll] using h
  | cons a as ih =>
    rw [appendAll_cons]
    apply ih
    rcases h with h | h
    · rcases List.mem_cons.mp h with rfl | h
      · right
        rw [append_msgs]
        exact mem_avlInsert.mpr (Or.inl rfl)
      · left
        exact h
    · right
      rw [append_msgs]
      exact mem_avlInsert.mpr (Or.inr h)

theorem pairwise_appendAll (r : MattermostRoom)
    (ms : List MattermostMessage)
    (h : r.mmr_msgs.Pairwise (fun a b => a.created ≤ b.created)) :
    (appendAll r ms).mmr_msgs.Pairwise
      (fun a b => a.created ≤ b.created) := by
  induction ms generalizing r with
  | nil => exact h
  | cons a as ih =>
    rw [appendAll_cons]
    apply ih
    rw [append_msgs]
    exact pairwise_avlInsert_compareMessages a r.mmr_msgs h

theorem iterBefore_of_sorted_mem {l : List MattermostMessage}
    (hs : l.Pairwise (fun a b => a.created ≤ b.created))
    {m1 m2 : MattermostMessage} (h1 : m1 ∈ l) (h2 : m2 ∈ l)
    (hlt : m1.created < m2.created) : IterBefore l m1 m2 := by
  obtain ⟨i, hi⟩ := List.mem_iff_get.mp h1
  obtain ⟨j, hj⟩ := List.mem_iff_get.mp h2
  rcases lt_trichotomy i j with h | h | h
  · exact ⟨i, j, h, hi, hj⟩
  · subst h
    rw [hi] at hj
    subst hj
    exact absurd hlt (Nat.lt_irrefl _)
  · have hle := List.pairwise_iff_get.mp hs j i h
    rw [hi, hj] at hle
    omega

theorem created_le_of_iterBefore {l : List MattermostMessage}
    (hs : l.Pairwise (fun a b => a.created ≤ b.created))
    {m1 m2 : MattermostMessage} (h : IterBefore l m1 m2) :
    m1.created ≤ m2.created := by
  obtain ⟨i, j, hij, hi, hj⟩ := h
  have hle := List.pairwise_iff_get.mp hs i j hij
  rw [hi, hj] at hle
  exact hle

/- ------------------------------------------------------------------ -/
/- Claim theorems.                                                     -/

/-- Claim C1, counterexample: two distinct messages with equal creation
timestamps are appended; the iteration yields one of them strictly before
the other, so the claimed equivalence "m1 before m2 iff m1.created ≤
m2.created" fails for the pair taken in the other direction, whose
timestamps also satisfy `≤`. -/
theorem room_history_iff_counterexample :
    ¬ (IterBefore
          (appendAll (mkMattermostRoom cxChannel) [cxMsgA, cxMsgB]).mmr_msgs
          cxMsgB cxMsgA
        ↔ cxMsgB.created ≤ cxMsgA.created) := by
  decide

/-- Claim C1, amended: after appending any collection of messages in any
call order, the room's history is in non-decreasing creation-timestamp
order; a pair with strictly smaller timestamp is yielded strictly
earlier, and a pair yielded earlier has timestamp `≤` that of the later
one (the original "iff" holds whenever the two timestamps differ, and
for equal timestamps only the non-decreasing order is guaranteed). -/
theorem room_history_timestamp_order (ch : Channel)
    (ms : List MattermostMessage) (m1 m2 : MattermostMessage)
    (h1 : m1 ∈ ms) (h2 : m2 ∈ ms) :
    (appendAll (mkMattermostRoom ch) ms).mmr_msgs.Pairwise
      (fun a b => a.created ≤ b.created) ∧
    (m1.created < m2.created →
      IterBefore (appendAll (mkMattermostRoom ch) ms).mmr_msgs m1 m2) ∧
    (IterBefore (appendAll (mkMattermostRoom ch) ms).mmr_msgs m1 m2 →
      m1.created ≤ m2.created) := by
  have hs := pairwise_appendAll (mkMattermostRoom ch) ms
    (by simp [mkMattermostRoom])
  refine ⟨hs, ?_, ?_⟩
  · intro hlt
    exact iterBefore_of_sorted_mem hs
      (mem_appendAll (mkMattermostRoom ch) ms (Or.inl h1))
      (mem_appendAll (mkMattermostRoom ch) ms (Or.inl h2)) hlt
  · intro hb
    exact created_le_of_iterBefore hs hb

/-- Witness for the amended C1 theorem: two concrete messages appended in
reverse timestamp order are iterated in timestamp order. -/
theorem room_history_timestamp_order_witness :
    IterBefore
      (appendAll (mkMattermostRoom cxChannel) [cxMsgC, cxMsgA]).mmr_msgs
      cxMsgA cxMsgC :=
  (room_history_timestamp_order cxChannel [cxMsgC, cxMsgA] cxMsgA cxMsgC
    (by decide) (by decide)).2.1 (by decide)

/-- Claim C2: from `connected`, a socket reset or end transitions
directly to `connecting`; a socket error transitions to
`connected.failed`, whose entry action unconditionally transitions to
`connecting`; the entry action of `connected.failed` never leaves the
session there. -/
theorem connected_socket_failures_reach_connecting :
    runEntry (state_connected_handle .connectionReset) =
      ClientState.connecting ∧
    runEntry (state_connected_handle .wsEnd) = ClientState.connecting ∧
    state_connected_handle .wsError = ClientState.connectedFailed ∧
    runEntry (state_connected_handle .wsError) = ClientState.connecting ∧
    runEntry ClientState.connectedFailed = ClientState.connecting := by
  decide

theorem enterConnectedTrace_flag_true (u : Option UserJson) (n : Nat) :
    enterConnectedTrace { connectEmitted := true, user := u } n =
      ({ connectEmitted := true, user := u },
        List.replicate n SessionLifecycleEvent.reconnected) := by
  induction n with
  | zero => rfl
  | succ k ih =>
    simp [enterConnectedTrace, enterConnected, ih, List.replicate]

/-- Claim C3: starting from the constructed state (`connectEmitted`
false), a sequence of entries into `connected` emits `connected` carrying
the authenticated user exactly on the first entry and `reconnected` on
every subsequent one, and leaves the flag set; moreover the flag, once
set, is never cleared by a `connected` entry. -/
theorem session_connected_emission (u : Option UserJson) (n : Nat) :
    enterConnectedTrace { connectEmitted := false, user := u } (n + 1) =
      ({ connectEmitted := true, user := u },
        SessionLifecycleEvent.connected u ::
          List.replicate n SessionLifecycleEvent.reconnected) ∧
    (∀ s : SessionEmitState, s.connectEmitted = true →
      (enterConnected s).1.connectEmitted = true) := by
  constructor
  · simp [enterConnectedTrace, enterConnected, enterConnectedTrace_flag_true]
  · intro s hs
    simp [enterConnected, hs]

/-- Witness for C3 at two entries and a concrete flag-true state. -/
theorem session_connected_emission_witness :
    enterConnectedTrace { connectEmitted := false, user := none } (1 + 1) =
      ({ connectEmitted := true, user := none },
        SessionLifecycleEvent.connected none ::
          List.replicate 1 SessionLifecycleEvent.reconnected) ∧
    (enterConnected { connectEmitted := true, user := none
      }).1.connectEmitted = true :=
  ⟨(session_connected_emission none 1).1,
   (session_connected_emission none 1).2
     { connectEmitted := true, user := none } rfl⟩

/-- Claim C4 (code bug), evaluated at concrete inputs: for an ordinary
REST operation the wrapper passes the error and body through unchanged,
and on a session-expired response it emits `reauthAsserted` once and
fails the call; but for `joinChannel` (and the identically-wired
`leaveChannel`) the response passes through `_handlecb` twice, the outer
wrapper is invoked with only two arguments, and the response body is
dropped: the consumer's callback receives `undefined` instead of the
body. -/
theorem joinChannel_drops_body_at_failing_input :
    restOpOutcome userCb .undefined .undefined .undefined
        (.body { id := none, tag := 7 }) =
      { reauthEmits := 0, arg1 := .undefined,
        arg2 := .body { id := none, tag := 7 } } ∧
    restOpOutcome userCb (.err (.serverErr 3)) .undefined .undefined
        (.body { id := some sessionExpiredId, tag := 1 }) =
      { reauthEmits := 1, arg1 := .err .reauthNeeded,
        arg2 := .undefined } ∧
    joinChannelOutcome userCb (.err (.serverErr 3)) .undefined .undefined
        (.body { id := some sessionExpiredId, tag := 1 }) =
      { reauthEmits := 1, arg1 := .err .reauthNeeded,
        arg2 := .undefined } ∧
    joinChannelOutcome userCb .undefined .undefined .undefined
        (.body { id := none, tag := 7 }) =
      { reauthEmits := 0, arg1 := .undefined, arg2 := .undefined } := by
  decide

/-- Claim C5: a frame whose `event` discriminator is present but not one
of the classifier's known kinds throws, and so does a frame with no
`event` discriminator and no string-valued `status`. -/
theorem classifier_throws_on_unrecognized (obj : Envelope) :
    (∀ e, obj.event = some e → e ∉ knownEventKinds →
      (processEvent obj).2 = Except.error obj) ∧
    (obj.event = none → (∀ s, obj.status ≠ some (.str s)) →
      (processEvent obj).2 = Except.error obj) := by
  constructor
  · intro e he hmem
    simp only [knownEventKinds, List.mem_cons, not_or] at hmem
    obtain ⟨h1, h2, h3⟩ := hmem
    simp [processEvent, he, h1, h2, h3]
  · intro he hs
    cases hstat : obj.status with
    | none => simp [processEvent, he, hstat]
    | some v =>
      cases v with
      | str s => exact absurd hstat (hs s)
      | other t => simp [processEvent, he, hstat]

/-- Witness for C5: a made-up event kind throws, and an envelope with
neither an `event` nor a string `status` throws. -/
theorem classifier_throws_on_unrecognized_witness :
    (processEvent
        { event := some "frobnicate", status := none, data := none }).2 =
      Except.error
        { event := some "frobnicate", status := none, data := none } ∧
    (processEvent
        { event := none, status := some (.other 0), data := none }).2 =
      Except.error
        { event := none, status := some (.other 0), data := none } :=
  ⟨(classifier_throws_on_unrecognized
      { event := some "frobnicate", status := none, data := none }).1
      "frobnicate" rfl (by decide),
   (classifier_throws_on_unrecognized
      { event := none, status := some (.other 0), data := none }).2
      rfl (by intro s; simp)⟩

/-- A concrete command-response acknowledgment envelope. -/
def ackEnv : Envelope :=
  { event := none, status := some (.str "OK"), data := none }

/-- Claim C6, counterexample: a command-response acknowledgment (no
`event`, string `status`) does surface an event to subscribers — the
generic `special` notification is emitted after the `break`, so the
surfaced emission list is not empty as the claim requires. -/
theorem ack_surfaces_special_counterexample :
    classifierEmissions ackEnv = [Emission.special] ∧
    classifierEmissions ackEnv ≠ [] := by
  decide

/-- Claim C6, amended: for an envelope with no `event` discriminator and
a string-valued `status`, the classifier logs only at low (debug)
severity and surfaces no semantic event, but it still emits the generic
`special` raw-event notification for the envelope. -/
theorem ack_logged_debug_and_special (obj : Envelope) (s : String)
    (he : obj.event = none) (hs : obj.status = some (.str s)) :
    processEvent obj =
      ([.debugEvent, .debugResponse], Except.ok [.special]) := by
  simp [processEvent, he, hs]

/-- Witness for the amended C6 theorem at the concrete acknowledgment. -/
theorem ack_logged_debug_and_special_witness :
    processEvent ackEnv =
      ([.debugEvent, .debugResponse], Except.ok [.special]) :=
  ack_logged_debug_and_special ackEnv "OK" rfl rfl

/-- Claim C7: a `posted` envelope whose nested post decodes with an
empty-string `type` yields a `message` emission carrying the envelope
data and the decoded post (followed by the generic `special`
notification); one whose decoded post has a known non-empty system
subtype yields no `message` emission but still the `special`
notification. -/
theorem posted_routing (obj : Envelope) (d : EnvData) (p : Post)
    (he : obj.event = some "posted") (hd : obj.data = some d)
    (hp : d.post = some p) :
    (p.type = "" →
      processEvent obj =
        ([.debugEvent], Except.ok [.message d p, .special])) ∧
    (p.type ∈ knownSystemPostTypes →
      processEvent obj = ([.debugEvent], Except.ok [.special])) := by
  constructor
  · intro ht
    simp [processEvent, processPosted, he, hd, hp, ht]
  · intro ht
    have hne : p.type ≠ "" := by
      intro h
      rw [h] at ht
      revert ht
      decide
    simp [processEvent, processPosted, he, hd, hp, ht, hne]

/-- A concrete user-authored `posted` envelope. -/
def postedEnvUser : Envelope :=
  { event := some "posted", status := none,
    data := some { post := some cxPostA } }

/-- A concrete system-notice post and its `posted` envelope. -/
def sysPost : Post :=
  { type := "system_join_channel", message := "", user_id := "U1",
    channel_id := "C1", create_at := 5 }

/-- The `posted` envelope carrying `sysPost`. -/
def postedEnvSys : Envelope :=
  { event := some "posted", status := none,
    data := some { post := some sysPost } }

/-- Witness for C7 at a user-authored post and at a system notice. -/
theorem posted_routing_witness :
    processEvent postedEnvUser =
      ([.debugEvent],
        Except.ok [.message { post := some cxPostA } cxPostA, .special]) ∧
    processEvent postedEnvSys =
      ([.debugEvent], Except.ok [.special]) :=
  ⟨(posted_routing postedEnvUser { post := some cxPostA } cxPostA
      rfl rfl rfl).1 rfl,
   (posted_routing postedEnvSys { post := some sysPost } sysPost
      rfl rfl rfl).2 (by decide)⟩

theorem find?_avlInsert_of_not_found {α : Type} {p : α → Bool}
    {cmp : α → α → Int} {x : α} {l : List α}
    (hl : ∀ a ∈ l, ¬ p a = true) (hx : p x = true) :
    (avlInsert cmp x l).find? p = some x := by
  induction l with
  | nil => simp [avlInsert, List.find?, hx]
  | cons y ys ih =>
    have hy : p y = false := by
      have := hl y (List.mem_cons_self y ys)
      simpa using this
    have hys : ∀ a ∈ ys, ¬ p a = true :=
      fun a ha => hl a (List.mem_cons_of_mem y ha)
    simp only [avlInsert]
    split
    · simp [List.find?, hx]
    · simp [List.find?, hy, ih hys]

/-- Claim C8: `getUser` is idempotent per identifier — when the id index
already holds a record with the identifier, that record is returned
as-is, the directory is unchanged and no fill-in fetch is scheduled; in
particular a second call with the same identifier (made before any
fill-in completes) returns the very record the first call produced,
changes nothing, and schedules no second fill-in. -/
theorem getUser_idempotent (db : MattermostUserDB) (id : String)
    (n1 n2 : Option String) :
    (∀ u, db.getUserById id = some u →
      db.getUser id n1 = (u, db, false)) ∧
    ((db.getUser id n1).2.1.getUser id n2).1 = (db.getUser id n1).1 ∧
    ((db.getUser id n1).2.1.getUser id n2).2.1 = (db.getUser id n1).2.1 ∧
    ((db.getUser id n1).2.1.getUser id n2).2.2 = false := by
  refine ⟨?_, ?_⟩
  · intro u hu
    simp [MattermostUserDB.getUser, hu]
  · cases h : db.getUserById id with
    | some u =>
      simp [MattermostUserDB.getUser, h]
    | none =>
      have h' : db.mud_uids.find? (fun u => u.mmu_id == id) = none := h
      have hnone : ∀ a ∈ db.mud_uids, ¬ (a.mmu_id == id) = true :=
        List.find?_eq_none.mp h'
      have hfind :
          (avlInsert compareUserID
              { mmu_id := id, mmu_username := none, mmu_nickname := n1 }
              db.mud_uids).find? (fun u => u.mmu_id == id) =
            some { mmu_id := id, mmu_username := none,
                   mmu_nickname := n1 } :=
        find?_avlInsert_of_not_found hnone (by simp)
      simp [MattermostUserDB.getUser, MattermostUserDB.getUserById, h',
        hfind]

/-- Witness for C8: a directory already holding the record returns it
unchanged, and a fresh directory schedules no second fill-in on the
repeated call. -/
theorem getUser_idempotent_witness :
    MattermostUserDB.getUser
        { mud_uids := [cxUser], mud_name := [] } "U1" none =
      (cxUser, { mud_uids := [cxUser], mud_name := [] }, false) ∧
    ((MattermostUserDB.getUser { mud_uids := [], mud_name := [] }
        "U1" none).2.1.getUser "U1" (some "al")).2.2 = false :=
  ⟨(getUser_idempotent { mud_uids := [cxUser], mud_name := [] }
      "U1" none none).1 cxUser (by decide),
   (getUser_idempotent { mud_uids := [], mud_name := [] }
      "U1" none (some "al")).2.2.2⟩

/-- Claim C9 (code bug), evaluated at the failing input: the `listening`
state's only handler fires on the event name `reconnect`, but the parent
session's re-entry lifecycle event is named `reconnected`, so delivering
the session's reconnect signal to a listening room leaves it in
`listening` instead of moving it to `loading`. -/
theorem listening_misses_reconnected_signal :
    state_listening_handle SessionLifecycleEvent.reconnected.name =
      RoomState.listening ∧
    SessionLifecycleEvent.reconnected.name ≠ "reconnect" ∧
    state_listening_handle "reconnect" = RoomState.loading := by
  decide

theorem loadPosts_preserves_other (ids : List String)
    (posts : List (String × Post)) (r : MattermostRoom)
    (db : MattermostUserDB) :
    (ids.foldl
        (fun rd id =>
          match posts.lookup id with
          | some p => loadPost rd.1 rd.2 p
          | none => rd)
        (r, db)).1.mmr_other = r.mmr_other := by
  induction ids generalizing r db with
  | nil => rfl
  | cons i is ih =>
    rw [List.foldl_cons]
    cases h : posts.lookup i with
    | none =>
      simp only [h]
      exact ih r db
    | some p =>
      simp only [h]
      exact (ih (loadPost r db p).1 (loadPost r db p).2).trans rfl

/-- Claim C10: the room constructor initialises the direct-counterpart
field to `null`; no room operation (append, single or bulk history load)
ever assigns it; and on a direct room whose counterpart was never set
externally, both `alias` and `name` dereference `null` and fail (modelled
as `none`) instead of returning a value. -/
theorem direct_room_null_counterpart (ch : Channel)
    (hD : ch.type = "D") :
    (mkMattermostRoom ch).mmr_other = none ∧
    (∀ r m, (MattermostRoom.append r m).mmr_other = r.mmr_other) ∧
    (∀ r db p, (loadPost r db p).1.mmr_other = r.mmr_other) ∧
    (∀ r db pg, (loadPosts r db pg).1.mmr_other = r.mmr_other) ∧
    MattermostRoom.alias (mkMattermostRoom ch) = none ∧
    MattermostRoom.name (mkMattermostRoom ch) = none := by
  refine ⟨rfl, fun r m => rfl, fun r db p => rfl, ?_, ?_, ?_⟩
  · intro r db pg
    exact loadPosts_preserves_other pg.order.reverse pg.posts r db
  · simp [MattermostRoom.alias, mkMattermostRoom, hD]
  · simp [MattermostRoom.name, mkMattermostRoom, hD]

/-- Witness for C10 at a concrete direct channel. -/
theorem direct_room_null_counterpart_witness :
    MattermostRoom.alias (mkMattermostRoom cxDirectChannel) = none ∧
    MattermostRoom.name (mkMattermostRoom cxDirectChannel) = none :=
  ⟨(direct_room_null_counterpart cxDirectChannel rfl).2.2.2.2.1,
   (direct_room_null_counterpart cxDirectChannel rfl).2.2.2.2.2⟩
